import Mathlib

/-!
Shallow embedding of `src/main.py` (Hesha Premium API backend): a FastAPI
CRUD layer over a MySQL store with an optional SMTP notification on order
creation.  Python values are modelled as follows: `str` as `String`,
`int` as `Int`, `float` monetary amounts as `Rat`, JSON text columns
(`LONGTEXT` holding `json.dumps` output) as a `Json` parse tree,
MySQL driver errors as an explicit error type, and driver/transport
failures of individual statements as explicit fault parameters.  Each
request handler is a pure function from the durable database state, the
request payload and the fault assignment to an outcome record that carries
the new durable state, the HTTP-level result, and whether the handler's
database connection was closed when the handler finished (modelling
`conn.close()` placement, including `try/finally`).  `conn.commit()` is
modelled by the point at which pending statement effects become the
returned durable state; an exception raised before `commit` leaves the
durable state unchanged (MySQL rolls back an uncommitted transaction when
the connection closes).
-/

namespace Hesha

/-- JSON values, as produced by `json.dumps` / consumed by `json.loads`.
Python `int` and `float` are kept distinct, as `json` round-trips them
distinctly. -/
inductive Json
  | null
  | str (s : String)
  | jint (n : Int)
  | jfloat (q : Rat)
  | arr (elems : List Json)
  | obj (fields : List (String × Json))

/-- `mysql.connector.Error`: an errno plus a message (`str(err)`). -/
structure MySQLErr where
  errno : Nat
  msg : String

/-- `mysql.connector.errorcode.ER_DUP_ENTRY`. -/
def ER_DUP_ENTRY : Nat := 1062

/-- The duplicate-key error MySQL raises on a unique/primary-key violation. -/
def dupEntryErr : MySQLErr := ⟨ER_DUP_ENTRY, "Duplicate entry"⟩

/-- The error MySQL raises on a foreign-key violation
(`orders.user_id REFERENCES users(id)`). -/
def fkViolationErr : MySQLErr := ⟨1452, "Cannot add or update a child row"⟩

/-- A row of the `users` table (`id, name, email UNIQUE, password, address
LONGTEXT`); `address` holds `json.dumps` output or SQL NULL. -/
structure UserRow where
  id : Int
  name : String
  email : String
  password : String
  address : Option Json

/-- A row of the `orders` table (`id VARCHAR PRIMARY KEY, user_id INT NULL
FK, total DECIMAL, status, items LONGTEXT, address LONGTEXT, created_at`). -/
structure OrderRow where
  id : String
  user_id : Option Int
  total : Rat
  status : String
  items : Json
  address : Json
  created_at : Nat

/-- The durable database state: the two mutable tables plus the
`AUTO_INCREMENT` counter of `users.id`. -/
structure DB where
  users : List UserRow
  orders : List OrderRow
  nextUserId : Int

/-- Pydantic `Address` model (`fullname, street, city, zip, phone`). -/
structure Address where
  fullname : String
  street : String
  city : String
  zip : String
  phone : String

/-- Pydantic `OrderItem` model (`title, price, img, quantity`). -/
structure OrderItem where
  title : String
  price : Rat
  img : String
  quantity : Int

/-- Pydantic `OrderCreate` model (`user_id : Optional[int], items, total,
address`). -/
structure OrderCreate where
  user_id : Option Int
  items : List OrderItem
  total : Rat
  address : Address

/-- Pydantic `UserSignup` model. -/
structure UserSignup where
  name : String
  email : String
  password : String

/-- Pydantic `UserLogin` model. -/
structure UserLogin where
  email : String
  password : String

/-- Pydantic `AddressUpdate` model (`user_id : int, addresses : List[dict]`). -/
structure AddressUpdate where
  user_id : Int
  addresses : List Json

/-- `datetime.now()` at second resolution, as consumed by
`strftime('%Y%m%d%H%M%S')`. -/
structure Timestamp where
  year : Nat
  month : Nat
  day : Nat
  hour : Nat
  minute : Nat
  second : Nat

/-- Zero-padded 2-digit decimal rendering of an in-range field, as
`strftime` produces for `%m %d %H %M %S`. -/
def pad2 (n : Nat) : List Char :=
  [Nat.digitChar (n / 10 % 10), Nat.digitChar (n % 10)]

/-- Zero-padded 4-digit decimal rendering of the year, as `strftime`
produces for `%Y` (datetime years lie in 1..9999). -/
def pad4 (n : Nat) : List Char :=
  [Nat.digitChar (n / 1000 % 10), Nat.digitChar (n / 100 % 10),
   Nat.digitChar (n / 10 % 10), Nat.digitChar (n % 10)]

/-- `datetime.now().strftime('%Y%m%d%H%M%S')`. -/
def Timestamp.format (t : Timestamp) : String :=
  String.mk (pad4 t.year ++ pad2 t.month ++ pad2 t.day ++
             pad2 t.hour ++ pad2 t.minute ++ pad2 t.second)

/-- `item.dict()` followed by `json.dumps`: the JSON object for one order
item, fields in Pydantic declaration order. -/
def itemToJson (i : OrderItem) : Json :=
  .obj [("title", .str i.title), ("price", .jfloat i.price),
        ("img", .str i.img), ("quantity", .jint i.quantity)]

/-- `json.dumps([item.dict() for item in order.items])`. -/
def itemsToJson (items : List OrderItem) : Json :=
  .arr (items.map itemToJson)

/-- `order.address.dict()` followed by `json.dumps`. -/
def addressToJson (a : Address) : Json :=
  .obj [("fullname", .str a.fullname), ("street", .str a.street),
        ("city", .str a.city), ("zip", .str a.zip), ("phone", .str a.phone)]

/-- Deserialization (`json.loads` output read back as an order item):
inverts `itemToJson`. -/
def jsonToItem : Json → Option OrderItem
  | .obj [("title", .str t), ("price", .jfloat p),
          ("img", .str i), ("quantity", .jint q)] =>
      some ⟨t, p, i, q⟩
  | _ => none

/-- Deserialization of the elements of a stored item list. -/
def jsonToItemList : List Json → Option (List OrderItem)
  | [] => some []
  | x :: xs =>
    match jsonToItem x, jsonToItemList xs with
    | some i, some is => some (i :: is)
    | _, _ => none

/-- Deserialization of a stored item list. -/
def jsonToItems : Json → Option (List OrderItem)
  | .arr xs => jsonToItemList xs
  | _ => none

/-- Deserialization of a stored address: inverts `addressToJson`. -/
def jsonToAddress : Json → Option Address
  | .obj [("fullname", .str f), ("street", .str s), ("city", .str c),
          ("zip", .str z), ("phone", .str p)] =>
      some ⟨f, s, c, z, p⟩
  | _ => none

/-- HTTP-level failure: a `raise HTTPException(status_code, detail)`, or an
exception that escapes the handler uncaught (FastAPI turns it into a 500,
but no `HTTPException` is constructed and no handler code after the raise
runs). -/
inductive HErr
  | httpException (status_code : Nat) (detail : String)
  | uncaught (err : MySQLErr)

/-- Outcome of one handler invocation: the durable database afterwards, the
returned value or error, and whether the handler's connection was closed by
the time control left the handler. -/
structure HResult (α : Type) where
  db : DB
  result : Except HErr α
  connClosed : Bool

/-- Response body of `POST /api/signup`. -/
structure SignupResp where
  id : Int
  name : String
  email : String
  message : String

/-- Response body of `POST /api/login`. -/
structure LoginResp where
  id : Int
  name : String
  email : String
  address : Option Json
  isLoggedIn : Bool

/-- Response body of `POST /api/orders`. -/
structure OrderResp where
  id : String
  message : String

/-- One element of the `GET /api/orders/{user_id}` response. -/
structure OrderOut where
  id : String
  total : Rat
  status : String
  items : Json
  address : Json
  date : Nat

/-- Environment-derived notification configuration (`SENDER_EMAIL`,
`SENDER_PASSWORD`, `RECEIVER_EMAIL`; the password defaults to the empty
string when unset). -/
structure Env where
  sender_email : String
  sender_password : String
  receiver_email : String

/-- What `send_order_notification` did (it only prints; nothing is returned
to the caller). -/
inductive NotifyOutcome
  | skipped (log : String)
  | sent (log : String)
  | failed (log : String)

/-- The `items_list` accumulation loop in `send_order_notification`. -/
def notifyItemsList (items : List OrderItem) : String :=
  items.foldl
    (fun acc item =>
      acc ++ "- " ++ item.title ++ " (x" ++ toString item.quantity ++ ") - Rs"
        ++ toString (item.price * (item.quantity : Rat)) ++ "\n")
    ""

/-- `send_order_notification(order_id, total, items, address)`: if no
sender password is configured it logs a skip notice and returns; otherwise
it builds the message and submits it over SMTP inside a `try` whose
`except Exception` catches any transport/auth failure, so the function
never raises.  `smtpFault` injects such a failure (`None` = delivery
succeeds). -/
def send_order_notification (env : Env) (smtpFault : Option String)
    (order_id : String) (total : Rat) (items : List OrderItem)
    (address : Address) : NotifyOutcome :=
  if env.sender_password = "" then
    .skipped ("Email notification skipped: SENDER_PASSWORD not set. Order #"
      ++ order_id ++ " recorded in DB.")
  else
    let _subject := "NEW ORDER CONFIRMED - #" ++ order_id
    let _items_list := notifyItemsList items
    let _body := "New Order Received! Order ID: " ++ order_id
      ++ " Total Amount: Rs" ++ toString total
      ++ " Name: " ++ address.fullname ++ " Phone: " ++ address.phone
      ++ " Address: " ++ address.street ++ ", " ++ address.city
      ++ " - " ++ address.zip ++ " " ++ _items_list
    match smtpFault with
    | some e => .failed ("Failed to send order notification: " ++ e)
    | none => .sent ("Notification email sent for Order #" ++ order_id)

/-- `cursor.execute("INSERT INTO users (name, email, password) VALUES ...")`:
an injected driver fault raises it; otherwise the `email UNIQUE` constraint
raises `ER_DUP_ENTRY` when the email is already stored; otherwise the row is
inserted with the next `AUTO_INCREMENT` id (returned as
`cursor.lastrowid`). -/
def execInsertUser (db : DB) (u : UserSignup) (fault : Option MySQLErr) :
    Except MySQLErr (DB × Int) :=
  match fault with
  | some e => .error e
  | none =>
    if db.users.any (fun r => r.email == u.email) then
      .error dupEntryErr
    else
      let uid := db.nextUserId
      .ok ({ db with
              users := db.users ++ [⟨uid, u.name, u.email, u.password, none⟩],
              nextUserId := uid + 1 }, uid)

/-- The quantization the `DECIMAL(10, 2)` column applies on insert: MySQL
silently rounds exact-value numbers to two decimal places, rounding halves
away from zero (Mathlib's `round` rounds halves up, so the negative case is
routed through negation). -/
def mysqlRound2 (q : Rat) : Rat :=
  if 0 ≤ q then ((round (q * 100) : Int) : Rat) / 100
  else -(((round (-q * 100) : Int) : Rat) / 100)

/-- The row the `orders` table actually stores: the `total DECIMAL(10, 2)`
column quantizes the submitted total to two decimal places; every other
column stores the value as submitted. -/
def storedOrderRow (row : OrderRow) : OrderRow :=
  { row with total := mysqlRound2 row.total }

/-- `cursor.execute("INSERT INTO orders ...")`: an injected driver fault
raises it; otherwise the primary key on `orders.id` raises `ER_DUP_ENTRY`
on a duplicate order id, and the foreign key on `user_id` raises a
violation when a non-NULL `user_id` references no user; the stored row has
its total quantized by the `DECIMAL(10, 2)` column. -/
def execInsertOrder (db : DB) (row : OrderRow) (fault : Option MySQLErr) :
    Except MySQLErr DB :=
  match fault with
  | some e => .error e
  | none =>
    if db.orders.any (fun r => r.id == row.id) then
      .error dupEntryErr
    else
      match row.user_id with
      | some uid =>
        if db.users.any (fun r => r.id == uid) then
          .ok { db with orders := db.orders ++ [storedOrderRow row] }
        else
          .error fkViolationErr
      | none => .ok { db with orders := db.orders ++ [storedOrderRow row] }

/-- `cursor.execute("UPDATE users SET address = %s WHERE id = %s")`: an
injected driver fault raises it; otherwise every row whose id matches gets
the new address text, and matching zero rows is not an error. -/
def execUpdateAddress (db : DB) (addr : Json) (uid : Int)
    (fault : Option MySQLErr) : Except MySQLErr DB :=
  match fault with
  | some e => .error e
  | none =>
    .ok { db with
            users := db.users.map
              (fun r => if r.id == uid then { r with address := some addr } else r) }

/-- `POST /api/signup`: insert the user inside `try`, translating
`ER_DUP_ENTRY` to HTTP 400 and any other driver error to HTTP 500; `finally`
closes the connection on every path.  The commit directly follows the
insert, so a successful insert is durable. -/
def signup (db : DB) (user : UserSignup) (fault : Option MySQLErr) :
    HResult SignupResp :=
  match execInsertUser db user fault with
  | .error err =>
    if err.errno == ER_DUP_ENTRY then
      ⟨db, .error (.httpException 400 "Email already registered"), true⟩
    else
      ⟨db, .error (.httpException 500 err.msg), true⟩
  | .ok (db1, user_id) =>
    ⟨db1, .ok ⟨user_id, user.name, user.email, "User created successfully"⟩, true⟩

/-- `POST /api/login`: the SELECT runs with no `try`, so a driver fault
escapes the handler before `conn.close()` runs; otherwise the connection is
closed and the first row with the given email is compared by `==` against
the submitted password, any mismatch (or no row) raising HTTP 401. -/
def login (db : DB) (user : UserLogin) (fault : Option MySQLErr) :
    HResult LoginResp :=
  match fault with
  | some e => ⟨db, .error (.uncaught e), false⟩
  | none =>
    let row := db.users.find? (fun r => r.email == user.email)
    match row with
    | some r =>
      if r.password == user.password then
        ⟨db, .ok ⟨r.id, r.name, r.email, r.address, true⟩, true⟩
      else
        ⟨db, .error (.httpException 401 "Invalid credentials"), true⟩
    | none => ⟨db, .error (.httpException 401 "Invalid credentials"), true⟩

/-- `POST /api/orders`: generate the id from the current timestamp, then
inside one `try`: insert the order row with status `"Delivered"`, run the
user-address UPDATE when `order.user_id` is truthy, and only then
`conn.commit()`.  Any driver error in either statement is caught and
re-raised as HTTP 500, and since nothing was committed the durable state is
unchanged (closing the connection rolls the transaction back).  After the
commit the notification is sent and its outcome discarded; `finally` closes
the connection on every path.  `now` is the timestamp read for the id,
`dbNow` the MySQL clock stamped into `created_at`. -/
def create_order (db : DB) (order : OrderCreate) (now : Timestamp)
    (dbNow : Nat) (env : Env) (insertFault updateFault : Option MySQLErr)
    (smtpFault : Option String) : HResult OrderResp :=
  let order_id := "ORD" ++ Timestamp.format now
  let items_json := itemsToJson order.items
  let address_json := addressToJson order.address
  match execInsertOrder db
      ⟨order_id, order.user_id, order.total, "Delivered",
       items_json, address_json, dbNow⟩ insertFault with
  | .error err => ⟨db, .error (.httpException 500 err.msg), true⟩
  | .ok db1 =>
    let afterUpdate : Except MySQLErr DB :=
      if order.user_id.getD 0 != 0 then
        execUpdateAddress db1 address_json (order.user_id.getD 0) updateFault
      else
        .ok db1
    match afterUpdate with
    | .error err => ⟨db, .error (.httpException 500 err.msg), true⟩
    | .ok db2 =>
      let _notify := send_order_notification env smtpFault order_id
        order.total order.items order.address
      ⟨db2, .ok ⟨order_id, "Order placed successfully"⟩, true⟩

/-- Insertion step of `ORDER BY created_at DESC`. -/
def insertByDateDesc (r : OrderRow) : List OrderRow → List OrderRow
  | [] => [r]
  | x :: xs =>
    if x.created_at ≤ r.created_at then r :: x :: xs
    else x :: insertByDateDesc r xs

/-- `ORDER BY created_at DESC`: sort rows newest first. -/
def sortByDateDesc : List OrderRow → List OrderRow
  | [] => []
  | x :: xs => insertByDateDesc x (sortByDateDesc xs)

/-- The response-shaping loop of `get_user_orders`: `float(total)`,
`json.loads(items)`, `json.loads(address)` (LONGTEXT is modelled as the
parse tree, so `loads` returns it as stored). -/
def rowToOrderOut (r : OrderRow) : OrderOut :=
  ⟨r.id, r.total, r.status, r.items, r.address, r.created_at⟩

/-- `GET /api/orders/{user_id}`: the SELECT runs with no `try`, so a driver
fault escapes the handler before `conn.close()` runs; otherwise the rows
with `user_id = %s` (SQL equality — a NULL `user_id` never matches) are
returned newest first. -/
def get_user_orders (db : DB) (user_id : Int) (fault : Option MySQLErr) :
    HResult (List OrderOut) :=
  match fault with
  | some e => ⟨db, .error (.uncaught e), false⟩
  | none =>
    let rows := sortByDateDesc
      (db.orders.filter (fun r => r.user_id == some user_id))
    ⟨db, .ok (rows.map rowToOrderOut), true⟩

/-- `POST /api/user/address`: inside `try`, dump the submitted address list
and run the UPDATE, translating any driver error to HTTP 500; the commit
directly follows; `finally` closes the connection on every path. -/
def update_user_address (db : DB) (data : AddressUpdate)
    (fault : Option MySQLErr) : HResult (String) :=
  let address_json := Json.arr data.addresses
  match execUpdateAddress db address_json data.user_id fault with
  | .error err => ⟨db, .error (.httpException 500 err.msg), true⟩
  | .ok db1 => ⟨db1, .ok "Addresses updated successfully", true⟩

/-! ## Helper lemmas and concrete fixtures -/

theorem jsonToItem_itemToJson (i : OrderItem) : jsonToItem (itemToJson i) = some i := rfl

theorem jsonToAddress_addressToJson (a : Address) :
    jsonToAddress (addressToJson a) = some a := rfl

theorem jsonToItems_itemsToJson (l : List OrderItem) :
    jsonToItems (itemsToJson l) = some l := by
  induction l with
  | nil => rfl
  | cons a t ih =>
    simp only [jsonToItems, itemsToJson, List.map_cons, jsonToItemList,
      jsonToItem_itemToJson] at *
    simp [ih]

/-- The order row `create_order` submits to the INSERT statement. -/
def orderRowOf (order : OrderCreate) (now : Timestamp) (dbNow : Nat) : OrderRow :=
  ⟨"ORD" ++ Timestamp.format now, order.user_id, order.total, "Delivered",
   itemsToJson order.items, addressToJson order.address, dbNow⟩

/-- Unfolding of `create_order` into its three stages (insert, conditional
address update, commit-and-notify). -/
theorem create_order_cases (db : DB) (order : OrderCreate) (now : Timestamp)
    (dbNow : Nat) (env : Env) (iF uF : Option MySQLErr) (sF : Option String) :
    create_order db order now dbNow env iF uF sF =
      match execInsertOrder db (orderRowOf order now dbNow) iF with
      | .error err => ⟨db, .error (.httpException 500 err.msg), true⟩
      | .ok db1 =>
        match (if order.user_id.getD 0 != 0
               then execUpdateAddress db1 (addressToJson order.address)
                      (order.user_id.getD 0) uF
               else .ok db1) with
        | .error err => ⟨db, .error (.httpException 500 err.msg), true⟩
        | .ok db2 =>
          ⟨db2, .ok ⟨"ORD" ++ Timestamp.format now, "Order placed successfully"⟩, true⟩ := rfl

theorem digitChar_mod10_isDigit (n : Nat) : (Nat.digitChar (n % 10)).isDigit = true := by
  have h : n % 10 < 10 := Nat.mod_lt _ (by norm_num)
  have hall : ∀ m : Fin 10, (Nat.digitChar m.val).isDigit = true := by decide
  exact hall ⟨n % 10, h⟩

theorem format_length (t : Timestamp) : (Timestamp.format t).length = 14 := by
  simp [Timestamp.format, pad4, pad2, String.length]

theorem format_digits (t : Timestamp) :
    ∀ c ∈ (Timestamp.format t).data, c.isDigit = true := by
  intro c hc
  simp only [Timestamp.format, pad4, pad2, List.append_assoc, List.cons_append,
    List.nil_append, List.mem_cons, List.not_mem_nil, or_false] at hc
  rcases hc with rfl | rfl | rfl | rfl | rfl | rfl | rfl | rfl | rfl | rfl | rfl | rfl | rfl | rfl
    <;> exact digitChar_mod10_isDigit _

theorem mem_insertByDateDesc {r x : OrderRow} {l : List OrderRow} :
    x ∈ insertByDateDesc r l ↔ x = r ∨ x ∈ l := by
  induction l with
  | nil => simp [insertByDateDesc]
  | cons a t ih =>
    unfold insertByDateDesc
    split
    · simp [List.mem_cons]
    · simp only [List.mem_cons, ih]
      tauto

theorem mem_sortByDateDesc {x : OrderRow} {l : List OrderRow} :
    x ∈ sortByDateDesc l ↔ x ∈ l := by
  induction l with
  | nil => simp [sortByDateDesc]
  | cons a t ih => simp [sortByDateDesc, mem_insertByDateDesc, ih, List.mem_cons]

theorem map_eq_self_of {α : Type} {f : α → α} {l : List α}
    (h : ∀ x ∈ l, f x = x) : l.map f = l := by
  induction l with
  | nil => rfl
  | cons a t ih =>
    simp only [List.map_cons]
    rw [h a (by simp), ih (fun x hx => h x (by simp [hx]))]

/-- A driver-level failure used in concrete scenarios (errno 2006 is
MySQL's server-gone-away, not a duplicate entry). -/
def boomErr : MySQLErr := ⟨2006, "boom"⟩

/-- One stored user with id 1. -/
def userA : UserRow := ⟨1, "A", "a@x.com", "pw", none⟩

/-- A database holding only `userA` and no orders. -/
def db0 : DB := ⟨[userA], [], 2⟩

/-- A database whose only user has id 0. -/
def dbZ : DB := ⟨[⟨0, "Z", "z@x.com", "pw", none⟩], [], 2⟩

/-- A notification environment with a configured sender password. -/
def env0 : Env := ⟨"sender@x.com", "secret", "ops@x.com"⟩

/-- The shipping address of the spec's example order. -/
def addr0 : Address := ⟨"A", "S", "C", "000001", "9999999999"⟩

/-- The line item of the spec's example order. -/
def item0 : OrderItem := ⟨"Dosa", 150, "dosa.png", 2⟩

/-- The spec's example order, owned by user 1. -/
def ord0 : OrderCreate := ⟨some 1, [item0], 300, addr0⟩

/-- A concrete request timestamp. -/
def ts0 : Timestamp := ⟨2026, 10, 12, 1, 2, 3⟩

/-! ## Claims -/

/-- C2: order placement is independent of the notification sender.  The
result and the durable database of `create_order` do not depend on the
notification environment or on an injected SMTP fault; with no sender
password the sender short-circuits with a skip notice; with a password, any
transport/auth failure is caught and turned into a logged failure value
rather than an exception. -/
theorem C2_notification_independence (db : DB) (order : OrderCreate)
    (now : Timestamp) (dbNow : Nat) (env env2 : Env)
    (iF uF : Option MySQLErr) (sF sF2 : Option String) :
    ((create_order db order now dbNow env iF uF sF).result
        = (create_order db order now dbNow env2 iF uF sF2).result
      ∧ (create_order db order now dbNow env iF uF sF).db
        = (create_order db order now dbNow env2 iF uF sF2).db)
    ∧ (∀ oid total items addr f, env.sender_password = "" →
        send_order_notification env f oid total items addr
          = .skipped ("Email notification skipped: SENDER_PASSWORD not set. Order #"
              ++ oid ++ " recorded in DB."))
    ∧ (∀ oid total items addr e, env.sender_password ≠ "" →
        send_order_notification env (some e) oid total items addr
          = .failed ("Failed to send order notification: " ++ e)) := by
  refine ⟨⟨rfl, rfl⟩, ?_, ?_⟩
  · intro oid total items addr f hpw
    simp [send_order_notification, hpw]
  · intro oid total items addr e hpw
    simp [send_order_notification, hpw]

/-- C2 witness: with the example order, an SMTP fault and an empty sender
password each leave the returned id and database equal to the fault-free,
configured run. -/
theorem C2_notification_independence_witness :
    ((create_order db0 ord0 ts0 5 env0 none none (some "tls down")).result
        = (create_order db0 ord0 ts0 5 ⟨"sender@x.com", "", "ops@x.com"⟩
            none none none).result)
    ∧ send_order_notification ⟨"sender@x.com", "", "ops@x.com"⟩ none "ORD1" 300 [] addr0
        = .skipped "Email notification skipped: SENDER_PASSWORD not set. Order #ORD1 recorded in DB."
    ∧ send_order_notification env0 (some "auth failed") "ORD1" 300 [] addr0
        = .failed "Failed to send order notification: auth failed" := by
  refine ⟨(C2_notification_independence db0 ord0 ts0 5 env0
      ⟨"sender@x.com", "", "ops@x.com"⟩ none none (some "tls down") none).1.1, ?_, ?_⟩
  · exact (C2_notification_independence db0 ord0 ts0 5
      ⟨"sender@x.com", "", "ops@x.com"⟩ env0 none none none none).2.1
      "ORD1" 300 [] addr0 none rfl
  · exact (C2_notification_independence db0 ord0 ts0 5 env0 env0
      none none none none).2.2 "ORD1" 300 [] addr0 "auth failed" (by decide)

/-- C4: every successfully returned order id is the literal `"ORD"`
followed by the 14-digit `YYYYMMDDHHMMSS` rendering of the request
timestamp. -/
theorem C4_order_id_format (db : DB) (order : OrderCreate) (now : Timestamp)
    (dbNow : Nat) (env : Env) (iF uF : Option MySQLErr) (sF : Option String)
    (resp : OrderResp)
    (h : (create_order db order now dbNow env iF uF sF).result = Except.ok resp) :
    resp.id = "ORD" ++ Timestamp.format now
    ∧ (Timestamp.format now).length = 14
    ∧ ∀ c ∈ (Timestamp.format now).data, c.isDigit = true := by
  refine ⟨?_, format_length now, format_digits now⟩
  rw [create_order_cases] at h
  split at h
  · simp at h
  · split at h
    · simp at h
    · simp only [Except.ok.injEq] at h
      rw [← h]

/-- C4 witness: the example order's returned id is
`ORD20261012010203`. -/
theorem C4_order_id_format_witness :
    (create_order db0 ord0 ts0 5 env0 none none none).result
        = Except.ok ⟨"ORD20261012010203", "Order placed successfully"⟩
    ∧ (⟨"ORD20261012010203", "Order placed successfully"⟩ : OrderResp).id
        = "ORD" ++ Timestamp.format ts0 := by
  exact ⟨rfl, (C4_order_id_format db0 ord0 ts0 5 env0 none none none
    ⟨"ORD20261012010203", "Order placed successfully"⟩ rfl).1⟩

/-- C8: updating the address of a user id that matches no stored user
returns the confirmation message, raises no error, and leaves the database
(every stored user) unchanged: the UPDATE matches zero rows. -/
theorem C8_update_missing_user_noop (db : DB) (data : AddressUpdate)
    (h : ∀ r ∈ db.users, r.id ≠ data.user_id) :
    (update_user_address db data none).result = Except.ok "Addresses updated successfully"
    ∧ (update_user_address db data none).db = db := by
  have hmap : db.users.map
      (fun r => if r.id == data.user_id
        then { r with address := some (Json.arr data.addresses) } else r) = db.users := by
    apply map_eq_self_of
    intro r hr
    simp [h r hr]
  constructor
  · rfl
  · simp only [update_user_address, execUpdateAddress, hmap]

/-- C8 witness: updating user id 99 in a database whose only user has
id 1 succeeds and changes nothing. -/
theorem C8_update_missing_user_noop_witness :
    (update_user_address db0 ⟨99, []⟩ none).result = Except.ok "Addresses updated successfully"
    ∧ (update_user_address db0 ⟨99, []⟩ none).db = db0 :=
  C8_update_missing_user_noop db0 ⟨99, []⟩ (by decide)

theorem execInsertOrder_ok {db db' : DB} {row : OrderRow} {f : Option MySQLErr}
    (h : execInsertOrder db row f = Except.ok db') :
    db' = { db with orders := db.orders ++ [storedOrderRow row] } := by
  unfold execInsertOrder at h
  split at h
  · simp at h
  · split at h
    · simp at h
    · split at h
      · split at h
        · simp only [Except.ok.injEq] at h
          rw [← h]
        · simp at h
      · simp only [Except.ok.injEq] at h
        rw [← h]

theorem execInsertOrder_none_ok {db : DB} {row : OrderRow}
    (hdup : db.orders.any (fun r => r.id == row.id) = false)
    (hfk : ∀ uid, row.user_id = some uid → db.users.any (fun r => r.id == uid) = true) :
    execInsertOrder db row none
      = Except.ok { db with orders := db.orders ++ [storedOrderRow row] } := by
  unfold execInsertOrder
  rw [hdup]
  cases hu : row.user_id with
  | some uid => simp [hfk uid hu]
  | none => simp

theorem execUpdateAddress_ok_orders {db db' : DB} {addr : Json} {uid : Int}
    {f : Option MySQLErr} (h : execUpdateAddress db addr uid f = Except.ok db') :
    db'.orders = db.orders ∧ db'.nextUserId = db.nextUserId := by
  unfold execUpdateAddress at h
  split at h
  · simp at h
  · simp only [Except.ok.injEq] at h
    rw [← h]
    exact ⟨rfl, rfl⟩

/-- C9: a guest order (no owning user id) never touches the `users` table,
and with a working INSERT (and a fresh order id) it succeeds — regardless
of any fault injected into the address-update statement, which is never
executed. -/
theorem C9_guest_order_frame (db : DB) (order : OrderCreate) (now : Timestamp)
    (dbNow : Nat) (env : Env) (iF uF : Option MySQLErr) (sF : Option String)
    (hGuest : order.user_id = none) :
    (create_order db order now dbNow env iF uF sF).db.users = db.users
    ∧ (db.orders.any (fun r => r.id == "ORD" ++ Timestamp.format now) = false →
        (create_order db order now dbNow env none uF sF).result
          = Except.ok ⟨"ORD" ++ Timestamp.format now, "Order placed successfully"⟩) := by
  constructor
  · rw [create_order_cases]
    simp only [hGuest, Option.getD_none, bne_self_eq_false, Bool.false_eq_true,
      if_false]
    split
    · rfl
    · next db1 hI => rw [execInsertOrder_ok hI]
  · intro hdup
    have hIns := @execInsertOrder_none_ok db (orderRowOf order now dbNow)
      (by simpa [orderRowOf] using hdup)
      (by intro uid huid; rw [orderRowOf] at huid; simp [hGuest] at huid)
    rw [create_order_cases, hIns]
    simp [hGuest]

/-- C9 witness: a guest version of the example order succeeds with the
generated id and leaves the user table unchanged, even with a fault
injected into the address-update statement. -/
theorem C9_guest_order_frame_witness :
    (create_order db0 ⟨none, [item0], 300, addr0⟩ ts0 5 env0 none (some boomErr) none).db.users
        = db0.users
    ∧ (create_order db0 ⟨none, [item0], 300, addr0⟩ ts0 5 env0 none (some boomErr) none).result
        = Except.ok ⟨"ORD" ++ Timestamp.format ts0, "Order placed successfully"⟩ :=
  have h := C9_guest_order_frame db0 ⟨none, [item0], 300, addr0⟩ ts0 5 env0
    none (some boomErr) none rfl
  ⟨h.1, h.2 rfl⟩

/-- C10: because the guard is a Python truthiness test (`if order.user_id:`),
an order whose user id is 0 skips the address denormalization exactly like
a guest order: even with a fault injected into the UPDATE statement the
order succeeds, and no user record changes. -/
theorem C10_user_id_zero_truthiness (db : DB) (order : OrderCreate)
    (now : Timestamp) (dbNow : Nat) (env : Env) (uF : Option MySQLErr)
    (sF : Option String)
    (hZero : order.user_id = some 0)
    (hUser0 : db.users.any (fun r => r.id == (0 : Int)) = true)
    (hdup : db.orders.any (fun r => r.id == "ORD" ++ Timestamp.format now) = false) :
    (create_order db order now dbNow env none uF sF).result
        = Except.ok ⟨"ORD" ++ Timestamp.format now, "Order placed successfully"⟩
    ∧ (create_order db order now dbNow env none uF sF).db.users = db.users := by
  have hIns := @execInsertOrder_none_ok db (orderRowOf order now dbNow)
    (by simpa [orderRowOf] using hdup)
    (by intro uid huid; rw [orderRowOf] at huid; rw [hZero] at huid
        cases huid; exact hUser0)
  rw [create_order_cases, hIns]
  simp [hZero]

/-- C10 witness: in a database whose only user has id 0, the example order
with user id 0 succeeds and the user keeps its (empty) address, despite a
fault injected into the UPDATE statement. -/
theorem C10_user_id_zero_truthiness_witness :
    (create_order dbZ ⟨some 0, [item0], 300, addr0⟩ ts0 5 env0 none (some boomErr) none).result
        = Except.ok ⟨"ORD" ++ Timestamp.format ts0, "Order placed successfully"⟩
    ∧ (create_order dbZ ⟨some 0, [item0], 300, addr0⟩ ts0 5 env0 none (some boomErr) none).db.users
        = dbZ.users :=
  C10_user_id_zero_truthiness dbZ ⟨some 0, [item0], 300, addr0⟩ ts0 5 env0
    (some boomErr) none rfl rfl rfl

/-- C3 counterexample: `login` is a gateway operation, yet when its SELECT
raises a driver error the handler exits without releasing its connection —
refuting the claim that every operation releases on every exit path. -/
theorem C3_counterexample_login_leaks_connection :
    (login db0 ⟨"a@x.com", "pw"⟩ (some boomErr)).connClosed = false := rfl

/-- C3 (amended): signup, create-order and update-address close their
connection on every exit path (`try/finally`); login and
list-orders-for-user close it on the non-raising path only — when the
executed statement raises, the exception escapes before `conn.close()` and
the connection is not released. -/
theorem C3_amended_connection_release :
    (∀ db u f, (signup db u f).connClosed = true)
    ∧ (∀ db order now dbNow env iF uF sF,
        (create_order db order now dbNow env iF uF sF).connClosed = true)
    ∧ (∀ db data f, (update_user_address db data f).connClosed = true)
    ∧ (∀ db u, (login db u none).connClosed = true)
    ∧ (∀ db uid, (get_user_orders db uid none).connClosed = true)
    ∧ (∀ db u e, (login db u (some e)).connClosed = false)
    ∧ (∀ db uid e, (get_user_orders db uid (some e)).connClosed = false) := by
  refine ⟨?_, ?_, ?_, ?_, ?_, fun db u e => rfl, fun db uid e => rfl⟩
  · intro db u f
    unfold signup
    split
    · split <;> rfl
    · rfl
  · intro db order now dbNow env iF uF sF
    rw [create_order_cases]
    split
    · rfl
    · split <;> rfl
  · intro db data f
    simp only [update_user_address]
    split <;> rfl
  · intro db u
    cases hf : db.users.find? (fun r => r.email == u.email) with
    | none => simp [login, hf]
    | some r =>
      by_cases hp : (r.password == u.password) = true <;> simp [login, hf, hp]
  · intro db uid
    rfl

/-- C1 counterexample: with the example order (owned by user 1) and a fault
injected into the address-update statement, the workflow aborts with
HTTP 500 — the generated id is not returned — and the durable database is
unchanged, so the order row is not durably recorded. -/
theorem C1_counterexample_update_failure_aborts :
    (create_order db0 ord0 ts0 5 env0 none (some boomErr) none).result
        = Except.error (.httpException 500 "boom")
    ∧ (create_order db0 ord0 ts0 5 env0 none (some boomErr) none).db = db0
    ∧ (create_order db0 ord0 ts0 5 env0 none (some boomErr) none).db.orders = [] :=
  ⟨rfl, rfl, rfl⟩

/-- C1 (amended): a failure of the order-insert step surfaces HTTP 500 with
the durable state unchanged; a failure of the user-address-update step
(when it runs) does the same — since both statements share the single
commit, the inserted order row is rolled back rather than durably recorded;
only the notification step never affects the workflow's outcome. -/
theorem C1_amended_failure_semantics (db db1 : DB) (order : OrderCreate)
    (now : Timestamp) (dbNow : Nat) (env : Env) (e : MySQLErr)
    (uF : Option MySQLErr) (sF : Option String) :
    ((create_order db order now dbNow env (some e) uF sF).result
        = Except.error (.httpException 500 e.msg)
      ∧ (create_order db order now dbNow env (some e) uF sF).db = db)
    ∧ (execInsertOrder db (orderRowOf order now dbNow) none = Except.ok db1 →
       order.user_id.getD 0 ≠ 0 →
        (create_order db order now dbNow env none (some e) sF).result
            = Except.error (.httpException 500 e.msg)
        ∧ (create_order db order now dbNow env none (some e) sF).db = db)
    ∧ (∀ sF2, (create_order db order now dbNow env none none sF2).result
            = (create_order db order now dbNow env none none sF).result
        ∧ (create_order db order now dbNow env none none sF2).db
            = (create_order db order now dbNow env none none sF).db) := by
  refine ⟨?_, ?_, fun sF2 => ⟨rfl, rfl⟩⟩
  · rw [create_order_cases]
    exact ⟨rfl, rfl⟩
  · intro hIns hg
    have hb : (order.user_id.getD 0 != 0) = true := bne_iff_ne.mpr hg
    rw [create_order_cases]
    simp only [hIns, hb, if_true]
    exact ⟨rfl, rfl⟩

/-- C1 amended witness: concrete run of both failure modes on the example
order. -/
theorem C1_amended_failure_semantics_witness :
    ((create_order db0 ord0 ts0 5 env0 (some boomErr) none none).result
        = Except.error (.httpException 500 "boom")
      ∧ (create_order db0 ord0 ts0 5 env0 (some boomErr) none none).db = db0)
    ∧ ((create_order db0 ord0 ts0 5 env0 none (some boomErr) none).result
        = Except.error (.httpException 500 "boom")
      ∧ (create_order db0 ord0 ts0 5 env0 none (some boomErr) none).db = db0) :=
  have h := C1_amended_failure_semantics db0
    ⟨[userA], [storedOrderRow (orderRowOf ord0 ts0 5)], 2⟩ ord0 ts0 5 env0 boomErr none none
  ⟨h.1, h.2.1 rfl (by decide)⟩

/-- C6: with the email not yet stored, signup succeeds; afterwards exactly
one stored user carries that email; a second signup with the same email
fails with HTTP 400 ("Email already registered") and changes nothing; and
any driver failure other than a duplicate entry surfaces as HTTP 500 with
the driver's message. -/
theorem C6_signup_duplicate_email (db : DB) (u u2 : UserSignup)
    (hfresh : db.users.any (fun r => r.email == u.email) = false)
    (hsame : u2.email = u.email) :
    ((signup db u none).result
        = Except.ok ⟨db.nextUserId, u.name, u.email, "User created successfully"⟩)
    ∧ ((signup db u none).db.users.countP (fun r => r.email == u.email) = 1)
    ∧ ((signup (signup db u none).db u2 none).result
        = Except.error (.httpException 400 "Email already registered"))
    ∧ ((signup (signup db u none).db u2 none).db = (signup db u none).db)
    ∧ (∀ e, e.errno ≠ ER_DUP_ENTRY →
        (signup db u (some e)).result = Except.error (.httpException 500 e.msg)
        ∧ (signup db u (some e)).db = db) := by
  have h1 : execInsertUser db u none
      = Except.ok ({ db with
          users := db.users ++ [⟨db.nextUserId, u.name, u.email, u.password, none⟩],
          nextUserId := db.nextUserId + 1 }, db.nextUserId) := by
    unfold execInsertUser
    rw [hfresh]
    rfl
  have hs1 : signup db u none
      = ⟨{ db with
            users := db.users ++ [⟨db.nextUserId, u.name, u.email, u.password, none⟩],
            nextUserId := db.nextUserId + 1 },
         Except.ok ⟨db.nextUserId, u.name, u.email, "User created successfully"⟩,
         true⟩ := by
    unfold signup
    rw [h1]
  have hdup2 : ((db.users ++ [(⟨db.nextUserId, u.name, u.email, u.password, none⟩ : UserRow)]).any
      (fun r => r.email == u2.email)) = true := by
    simp [List.any_append, hsame]
  refine ⟨by rw [hs1], ?_, ?_, ?_, ?_⟩
  · rw [hs1]
    simp only [List.countP_append, List.countP_cons, List.countP_nil,
      beq_self_eq_true, if_true]
    have h0 : db.users.countP (fun r => r.email == u.email) = 0 :=
      List.countP_eq_zero.mpr (List.any_eq_false.mp hfresh)
    omega
  · rw [hs1]
    unfold signup execInsertUser
    rw [hdup2]
    rfl
  · rw [hs1]
    unfold signup execInsertUser
    rw [hdup2]
    rfl
  · intro e he
    have hb : (e.errno == ER_DUP_ENTRY) = false := by simp [he]
    simp [signup, execInsertUser, hb]

/-- C6 witness: on an empty database, signing up twice with
`a@x.com` yields one stored user, a 400 on the second attempt, and an
injected non-duplicate driver fault yields a 500. -/
theorem C6_signup_duplicate_email_witness :
    ((signup ⟨[], [], 1⟩ ⟨"A", "a@x.com", "pw"⟩ none).result
        = Except.ok ⟨1, "A", "a@x.com", "User created successfully"⟩)
    ∧ ((signup ⟨[], [], 1⟩ ⟨"A", "a@x.com", "pw"⟩ none).db.users.countP
        (fun r => r.email == "a@x.com") = 1)
    ∧ ((signup (signup ⟨[], [], 1⟩ ⟨"A", "a@x.com", "pw"⟩ none).db
          ⟨"B", "a@x.com", "pw2"⟩ none).result
        = Except.error (.httpException 400 "Email already registered"))
    ∧ ((signup ⟨[], [], 1⟩ ⟨"A", "a@x.com", "pw"⟩ (some boomErr)).result
        = Except.error (.httpException 500 "boom")) :=
  have h := C6_signup_duplicate_email ⟨[], [], 1⟩ ⟨"A", "a@x.com", "pw"⟩
    ⟨"B", "a@x.com", "pw2"⟩ rfl rfl
  ⟨h.1, h.2.1, h.2.2.1, (h.2.2.2.2 boomErr (by decide)).1⟩

/-- C7: login succeeds exactly when the first stored user with the given
email exists and its stored password is equal (as a byte string) to the
submitted one; any mismatch — including a mismatch only in case or in
whitespace — or a missing user yields HTTP 401 "Invalid credentials". -/
theorem C7_login_byte_equality (db : DB) (u : UserLogin) :
    ((∃ resp, (login db u none).result = Except.ok resp)
      ↔ (∃ r, db.users.find? (fun r => r.email == u.email) = some r
            ∧ r.password = u.password))
    ∧ (∀ r, db.users.find? (fun r => r.email == u.email) = some r →
        r.password ≠ u.password →
        (login db u none).result
          = Except.error (.httpException 401 "Invalid credentials"))
    ∧ (db.users.find? (fun r => r.email == u.email) = none →
        (login db u none).result
          = Except.error (.httpException 401 "Invalid credentials")) := by
  refine ⟨?_, ?_, ?_⟩
  · cases hf : db.users.find? (fun r => r.email == u.email) with
    | none => simp [login, hf]
    | some r =>
      by_cases hp : r.password = u.password
      · simp only [login, hf, hp, beq_self_eq_true, if_true]
        constructor
        · intro _
          exact ⟨r, rfl, hp⟩
        · intro _
          exact ⟨⟨r.id, r.name, r.email, r.address, true⟩, rfl⟩
      · have hb : (r.password == u.password) = false := by simp [hp]
        simp [login, hf, hb, hp]
  · intro r hf hne
    have hb : (r.password == u.password) = false := by simp [hne]
    simp [login, hf, hb]
  · intro hf
    simp [login, hf]

/-- C7 witness: against the stored user `(a@x.com, pw)`, a password
differing only in case (`PW`) and one differing only in trailing
whitespace (`pw `) both fail with 401, while the exact bytes succeed. -/
theorem C7_login_byte_equality_witness :
    (login db0 ⟨"a@x.com", "PW"⟩ none).result
        = Except.error (.httpException 401 "Invalid credentials")
    ∧ (login db0 ⟨"a@x.com", "pw "⟩ none).result
        = Except.error (.httpException 401 "Invalid credentials")
    ∧ ∃ resp, (login db0 ⟨"a@x.com", "pw"⟩ none).result = Except.ok resp :=
  ⟨(C7_login_byte_equality db0 ⟨"a@x.com", "PW"⟩).2.1 userA rfl (by decide),
   (C7_login_byte_equality db0 ⟨"a@x.com", "pw "⟩).2.1 userA rfl (by decide),
   (C7_login_byte_equality db0 ⟨"a@x.com", "pw"⟩).1.mpr ⟨userA, rfl, rfl⟩⟩

/-- C5 counterexample: an order submitted with total 100.005 (= 20001/200)
is placed successfully, but the `DECIMAL(10, 2)` column stores the total
rounded to 100.01, so the listed total differs from the submitted one —
refuting the claim's universal "total equal to the submitted total". -/
theorem C5_counterexample_total_quantized :
    (create_order db0 ⟨some 1, [item0], 20001/200, addr0⟩ ts0 5 env0
        none none none).result
      = Except.ok ⟨"ORD20261012010203", "Order placed successfully"⟩
    ∧ (∃ outs,
        (get_user_orders
            (create_order db0 ⟨some 1, [item0], 20001/200, addr0⟩ ts0 5 env0
              none none none).db 1 none).result = Except.ok outs
        ∧ outs.map (fun o => o.id) = ["ORD20261012010203"]
        ∧ outs.map (fun o => o.status) = ["Delivered"]
        ∧ outs.map (fun o => o.total) = [mysqlRound2 (20001/200)])
    ∧ mysqlRound2 (20001/200) = 10001/100
    ∧ (10001 : Rat) / 100 ≠ 20001 / 200 := by
  refine ⟨rfl, ⟨_, rfl, rfl, rfl, rfl⟩, ?_, ?_⟩
  · norm_num [mysqlRound2, round_eq]
  · norm_num

/-- C5 (amended): placing an order with an owning user and then listing
that user's orders round-trips the order: the listing contains an entry
with the returned id, the fixed status `"Delivered"`, a stored item list
and address that deserialize back to exactly the submitted items and
address, and a total equal to the submitted total quantized to two decimal
places by the `DECIMAL(10, 2)` column — hence equal to the submitted total
whenever it already has at most two decimal places. -/
theorem C5_amended_order_listing_roundtrip (db : DB) (order : OrderCreate)
    (uid : Int) (now : Timestamp) (dbNow : Nat) (env : Env) (sF : Option String)
    (resp : OrderResp)
    (hUid : order.user_id = some uid)
    (h : (create_order db order now dbNow env none none sF).result = Except.ok resp) :
    ∃ outs,
      (get_user_orders (create_order db order now dbNow env none none sF).db
          uid none).result = Except.ok outs
      ∧ ∃ out ∈ outs,
          out.id = resp.id ∧ out.total = mysqlRound2 order.total
          ∧ out.status = "Delivered"
          ∧ jsonToItems out.items = some order.items
          ∧ jsonToAddress out.address = some order.address := by
  rcases hI : execInsertOrder db (orderRowOf order now dbNow) none with e | db1
  · rw [create_order_cases, hI] at h
    simp at h
  · have hdb1 := execInsertOrder_ok hI
    have hresp : resp = ⟨"ORD" ++ Timestamp.format now, "Order placed successfully"⟩ := by
      rw [create_order_cases] at h
      simp only [hI] at h
      split at h
      · next err heq =>
        split at heq <;> simp [execUpdateAddress] at heq
      · next db2 heq =>
        simp only [Except.ok.injEq] at h
        exact h.symm
    have hdbOrders : (create_order db order now dbNow env none none sF).db.orders
        = db.orders ++ [storedOrderRow (orderRowOf order now dbNow)] := by
      rw [create_order_cases]
      simp only [hI]
      split
      · next err heq =>
        split at heq <;> simp [execUpdateAddress] at heq
      · next db2 heq =>
        have horders : db2.orders = db1.orders := by
          split at heq
          · exact (execUpdateAddress_ok_orders heq).1
          · simp only [Except.ok.injEq] at heq
            rw [← heq]
        rw [horders, hdb1]
    refine ⟨_, rfl, rowToOrderOut (storedOrderRow (orderRowOf order now dbNow)),
      ?_, ?_, rfl, rfl, ?_, ?_⟩
    · apply List.mem_map_of_mem
      apply mem_sortByDateDesc.mpr
      apply List.mem_filter.mpr
      constructor
      · rw [hdbOrders]
        exact List.mem_append_right _ (List.mem_singleton.mpr rfl)
      · simp [storedOrderRow, orderRowOf, hUid]
    · rw [hresp]
      rfl
    · simp [rowToOrderOut, storedOrderRow, orderRowOf, jsonToItems_itemsToJson]
    · simp [rowToOrderOut, storedOrderRow, orderRowOf, jsonToAddress_addressToJson]

/-- C5 amended witness: the spec's example order (user 1, one Dosa line
item, total 300 — already at two decimal places) round-trips through the
listing with its total unchanged. -/
theorem C5_amended_order_listing_roundtrip_witness :
    ∃ outs,
      (get_user_orders (create_order db0 ord0 ts0 5 env0 none none none).db
          1 none).result = Except.ok outs
      ∧ ∃ out ∈ outs,
          out.id = "ORD20261012010203" ∧ out.total = mysqlRound2 300
          ∧ out.status = "Delivered"
          ∧ jsonToItems out.items = some [item0]
          ∧ jsonToAddress out.address = some addr0 :=
  C5_amended_order_listing_roundtrip db0 ord0 1 ts0 5 env0 none
    ⟨"ORD20261012010203", "Order placed successfully"⟩ rfl rfl

/-- On the example order's total the quantization is the identity: 300 is
already at two decimal places, so the witness's listed total is exactly the
submitted 300. -/
theorem mysqlRound2_300 : mysqlRound2 300 = 300 := by
  norm_num [mysqlRound2]

end Hesha
